import Mathlib

/-!
Shallow embedding of `tsgm/models/cgan.py`: the unconditional `GAN` trainer and the
`ConditionalGAN` trainer.

Modelling conventions:
- tensors are nested lists (`Tensor2`, `Tensor3`), entries are rationals (or an
  arbitrary type where only data movement matters);
- the tensor engine's random source is externalised: a call to
  `tf.random.normal(shape)` is modelled by materialising an external noise field
  at exactly the shape the code requests, and each random draw the code requests
  is additionally recorded as a `Draw` descriptor (which distribution, which
  shape, which parameters);
- external collaborators (generator, discriminator, loss function, autodiff)
  are passed as function arguments; parameter updates and tracker mutation are
  modelled as event traces;
- Python `None` is modelled by `Option.none`.
-/

/-- A 2-D tensor (batch × feature) as nested lists. -/
abbrev Tensor2 (α : Type) := List (List α)

/-- A 3-D tensor (batch × time × feature) as nested lists. -/
abbrev Tensor3 (α : Type) := List (List (List α))

/-- `tf.reduce_mean` on a flat list of rationals. -/
def tf_reduce_mean (l : List ℚ) : ℚ := l.sum / l.length

/-- Shape predicate for 2-D tensors: `B` rows, each of length `D`. -/
def shape2 (m : Tensor2 α) (B D : Nat) : Prop :=
  m.length = B ∧ ∀ b, b < B → (m.getD b []).length = D

/-- Shape predicate for 3-D tensors: `B` samples, each `T` rows of length `D`. -/
def shape3 (c : Tensor3 α) (B T D : Nat) : Prop :=
  c.length = B ∧ ∀ b, b < B → (c.getD b []).length = T ∧
    ∀ t, t < T → ((c.getD b []).getD t []).length = D

/-- Total double index into a 2-D tensor (default `d` out of range). -/
def idx2 (m : Tensor2 α) (d : α) (b j : Nat) : α := (m.getD b []).getD j d

/-- Total triple index into a 3-D tensor (default `d` out of range). -/
def idx3 (c : Tensor3 α) (d : α) (b t j : Nat) : α := ((c.getD b []).getD t []).getD j d

/-- `tf.random.normal(shape=(B, L))`: the engine supplies the standard-normal
values through the noise field `z`; the code fixes the shape. -/
def randNormal2 (z : Nat → Nat → ℚ) (B L : Nat) : Tensor2 ℚ :=
  (List.range B).map fun b => (List.range L).map fun j => z b j

/-- `tf.random.normal(shape=(B, T, L))` materialised from a noise field. -/
def randNormal3 (z : Nat → Nat → Nat → ℚ) (B T L : Nat) : Tensor3 ℚ :=
  (List.range B).map fun b => (List.range T).map fun t => (List.range L).map fun j => z b t j

/-- Descriptor of one random draw requested from the tensor engine: which
distribution, at which shape, with which parameters. -/
inductive Draw
  | normal (shape : List Nat) (mean stddev : ℚ)
  | uniform (shape : List Nat) (lo hi : ℚ)
deriving DecidableEq

/-- The kind of a supplied Keras optimizer: one of the three
`tensorflow_privacy` DP optimizer classes, or any other (plain) optimizer. -/
inductive OptimizerKind
  | dpKerasAdagrad
  | dpKerasAdam
  | dpKerasSGD
  | plain
deriving DecidableEq, Fintype

/-- Class membership test ("is an instance of one of the three known DP
optimizer classes"), independent of whether the privacy extension imports. -/
def OptimizerKind.isDP : OptimizerKind → Bool
  | .dpKerasAdagrad => true
  | .dpKerasAdam => true
  | .dpKerasSGD => true
  | .plain => false

/-- `_is_dp_optimizer` (cgan.py lines 19-23): `tf_privacy_available` and the
optimizer is an instance of `DPKerasAdagradOptimizer`, `DPKerasAdamOptimizer`
or `DPKerasSGDOptimizer`.  When `tensorflow_privacy` failed to import,
`tf_privacy_available` is false and the check reports false for everything. -/
def is_dp_optimizer (tf_privacy_available : Bool) (optimizer : OptimizerKind) : Bool :=
  tf_privacy_available
    && (optimizer == .dpKerasAdagrad || optimizer == .dpKerasAdam || optimizer == .dpKerasSGD)

/-- `GAN.compile` (lines 87-110), the part that derives the `dp` flag and the
mismatch warning.  Returns `(dp, warned)`: `dp = generator_dp AND
discriminator_dp`; a warning is logged exactly when the two differ.  (The local
names `generator_dp` / `discriminator_dp` are swapped relative to the
optimizers they test, as in the source; the conjunction is symmetric.) -/
def GAN.compile (tf_privacy_available : Bool) (d_optimizer g_optimizer : OptimizerKind) :
    Bool × Bool :=
  let generator_dp := is_dp_optimizer tf_privacy_available d_optimizer
  let discriminator_dp := is_dp_optimizer tf_privacy_available g_optimizer
  (generator_dp && discriminator_dp, generator_dp != discriminator_dp)

/-- `ConditionalGAN.compile` (lines 246-269): identical `dp` derivation. -/
def ConditionalGAN.compile (tf_privacy_available : Bool)
    (d_optimizer g_optimizer : OptimizerKind) : Bool × Bool :=
  let generator_dp := is_dp_optimizer tf_privacy_available d_optimizer
  let discriminator_dp := is_dp_optimizer tf_privacy_available g_optimizer
  (generator_dp && discriminator_dp, generator_dp != discriminator_dp)

/-- The state of a `GAN` trainer object relevant to `clone` (constructor
lines 30-52): references to the two sub-models, the latent dimension, the
`use_wgan` flag (defaulting to false) and the weight values (which live in the
shared sub-models; `get_weights` reads them). -/
structure GANModel where
  discriminator : Nat
  generator : Nat
  latent_dim : Nat
  use_wgan : Bool
  weights : List ℚ

/-- `keras.Model.get_weights`: reads the current weight values. -/
def GANModel.get_weights (self : GANModel) : List ℚ := self.weights

/-- `keras.Model.set_weights` copies weight values in place and, like any
Python method without a return statement, returns `None` — modelled as
`Option.none` (no usable object is returned). -/
def GANModel.set_weights (_self : GANModel) (_weights : List ℚ) : Option GANModel := none

/-- `GAN.clone` (lines 199-208): constructs a copy, rebinds the name
`copy_model` to the result of `set_weights`, and returns that. -/
def GANModel.clone (self : GANModel) : Option GANModel :=
  let copy_model : GANModel :=
    { discriminator := self.discriminator, generator := self.generator,
      latent_dim := self.latent_dim, use_wgan := false, weights := self.weights }
  let copy_model := copy_model.set_weights self.get_weights
  copy_model

/-- `ConditionalGAN._get_output_shape` (lines 284-291), on the label tensor's
shape: if temporal, 1 for rank-2 labels else the third dimension; otherwise the
second dimension.  (Python raises for too-small ranks; `getD` is only read at
the ranks the claims state.) -/
def ConditionalGAN._get_output_shape (temporal : Bool) (labels_shape : List Nat) : Nat :=
  if temporal then
    if labels_shape.length = 2 then 1
    else labels_shape.getD 2 0
  else labels_shape.getD 1 0

/-- `GAN._get_random_vector_labels` (lines 112-113): draws a standard normal of
shape `(batch_size, latent_dim)`; the `labels` argument is never read. -/
def GAN._get_random_vector_labels (latent_dim : Nat) (z : Nat → Nat → ℚ)
    (batch_size : Nat) (labels : Option (Tensor2 ℚ)) : Tensor2 ℚ :=
  randNormal2 z batch_size latent_dim

/-- The random draws `GAN._get_random_vector_labels` requests: one
standard-normal tensor of shape `(batch_size, latent_dim)`. -/
def GAN._get_random_vector_labels_draws (latent_dim batch_size : Nat) : List Draw :=
  [Draw.normal [batch_size, latent_dim] 0 1]

/-- `GAN.gp_weight` (line 49): the gradient-penalty weight fixed at
construction to 10.0. -/
def GAN.gp_weight : ℚ := 10

/-- `GAN.wgan_discriminator_loss` (lines 54-57). -/
def GAN.wgan_discriminator_loss (real_sample fake_sample : List ℚ) : ℚ :=
  let real_loss := tf_reduce_mean real_sample
  let fake_loss := tf_reduce_mean fake_sample
  fake_loss - real_loss

/-- `GAN.wgan_generator_loss` (lines 60-61). -/
def GAN.wgan_generator_loss (fake_sample : List ℚ) : ℚ :=
  -tf_reduce_mean fake_sample

/-- Elementwise combination of two 3-D tensors (the engine's broadcast-free
binary ops, used for `fake_samples - real_samples` and the final addition). -/
def zip3 (f : ℚ → ℚ → ℚ) (x y : Tensor3 ℚ) : Tensor3 ℚ :=
  List.zipWith (fun s r => List.zipWith (fun a b => List.zipWith f a b) s r) x y

/-- Broadcast multiplication of an `(B, 1, 1)`-shaped coefficient tensor
(carried as one rational per sample) against a `(B, T, F)` tensor: sample `b`
is scaled by `alpha b` at every timestep and feature. -/
def scale3 (alpha : List ℚ) (x : Tensor3 ℚ) : Tensor3 ℚ :=
  List.zipWith (fun a s => s.map fun r => r.map fun v => a * v) alpha x

/-- The random draws `GAN.gradient_penalty` requests (line 65):
`alpha = tf.random.normal([batch_size, 1, 1], 0.0, 1.0)` — a normal draw with
mean 0.0 and stddev 1.0, one coefficient per sample. -/
def GAN.gradient_penalty_draws (batch_size : Nat) : List Draw :=
  [Draw.normal [batch_size, 1, 1] 0 1]

/-- The interpolation step of `GAN.gradient_penalty` (lines 66-67):
`diff = fake_samples - real_samples; interpolated = real_samples + alpha * diff`,
with `alpha` the per-sample coefficient tensor just drawn.  The rest of the
method (discriminator forward, tape gradient, norm, mean of squares) consumes
the engine's autodiff and is modelled as external. -/
def GAN.gradient_penalty_interpolated (alpha : List ℚ) (real_samples fake_samples : Tensor3 ℚ) :
    Tensor3 ℚ :=
  let diff := zip3 (fun a b => a - b) fake_samples real_samples
  zip3 (fun a b => a + b) real_samples (scale3 alpha diff)

/-- The values a `GAN.train_step` computes that the claims speak about. -/
structure GANStep (α : Type) where
  batch_size : Nat
  combined_data : List α
  desc_labels : List ℚ
  misleading_labels : List ℚ
  d_loss : ℚ
  g_loss : ℚ

/-- `GAN.train_step` (lines 115-184), data and loss computation.  External
collaborators are arguments: `D` maps one (time × feature) sample to its logit,
`fake_data` is the generator's output on the first latent draw, `fresh_fake`
its output on the second draw, `loss_fn` the compiled loss, and `gp` the value
of the gradient penalty (whose own computation consumes the engine's
autodiff).  The `(B, 1)` label columns are carried as flat lists of length `B`.
Gradient application and tracker mutation are modelled by
`GAN.train_step_events`. -/
def GAN.train_step (use_wgan : Bool) (loss_fn : List ℚ → List ℚ → ℚ) (D : α → ℚ)
    (real_data fake_data fresh_fake : List α) (gp : ℚ) : GANStep α :=
  let batch_size := real_data.length
  let combined_data := fake_data ++ real_data
  let desc_labels := List.replicate batch_size (1 : ℚ) ++ List.replicate batch_size (0 : ℚ)
  let predictions := combined_data.map D
  let d_loss :=
    if use_wgan then
      let fake_logits := fake_data.map D
      let real_logits := real_data.map D
      let d_cost := GAN.wgan_discriminator_loss real_logits fake_logits
      d_cost + gp * GAN.gp_weight
    else loss_fn desc_labels predictions
  let misleading_labels := List.replicate batch_size (0 : ℚ)
  let predictions2 := fresh_fake.map D
  let g_loss :=
    if use_wgan then GAN.wgan_generator_loss predictions2
    else loss_fn misleading_labels predictions2
  ⟨batch_size, combined_data, desc_labels, misleading_labels, d_loss, g_loss⟩

/-- The observable side effects of a training step, in program order. -/
inductive TrainEvent
  | dLossComputed
  | dGradsApplied
  | dMinimized
  | gLossComputed
  | gGradsApplied
  | gMinimized
  | genTrackerUpdated
  | discTrackerUpdated
deriving DecidableEq

/-- An event is a loss-tracker mutation. -/
def TrainEvent.isTrackerUpdate : TrainEvent → Bool
  | .genTrackerUpdated => true
  | .discTrackerUpdated => true
  | _ => false

/-- An event applies the discriminator's parameter update. -/
def TrainEvent.isDiscUpdate : TrainEvent → Bool
  | .dGradsApplied => true
  | .dMinimized => true
  | _ => false

/-- An event applies the generator's parameter update. -/
def TrainEvent.isGenUpdate : TrainEvent → Bool
  | .gGradsApplied => true
  | .gMinimized => true
  | _ => false

/-- Side-effect order of `GAN.train_step` (lines 141-184): discriminator loss
inside the tape, discriminator gradients applied (line 157), generator loss
inside the second tape (lines 167-174), generator gradients applied
(line 177), then the two tracker updates (lines 179-180).  The `use_wgan`
branch changes the loss values, not this order. -/
def GAN.train_step_events : List TrainEvent :=
  [.dLossComputed, .dGradsApplied, .gLossComputed, .gGradsApplied,
   .genTrackerUpdated, .discTrackerUpdated]

/-- Side-effect order of `ConditionalGAN.train_step` (lines 335-373): the `dp`
flag selects the optimizer's combined minimize call instead of explicit
gradient computation plus apply, in the same positions. -/
def ConditionalGAN.train_step_events (dp : Bool) : List TrainEvent :=
  [TrainEvent.dLossComputed]
    ++ (if dp then [TrainEvent.dMinimized] else [TrainEvent.dGradsApplied])
    ++ [TrainEvent.gLossComputed]
    ++ (if dp then [TrainEvent.gMinimized] else [TrainEvent.gGradsApplied])
    ++ [TrainEvent.genTrackerUpdated, TrainEvent.discTrackerUpdated]

/-- `tf.repeat(x, repeats=[r])` with no `axis`: the input is flattened and
every element of the flattened list is repeated `r` times in place. -/
def tf_repeat_flat (x : List α) (r : Nat) : List α :=
  x.flatMap fun v => List.replicate r v

/-- Fuel-bounded chunking (structural recursion so the kernel can evaluate). -/
def chunksOfAux (n : Nat) : Nat → List α → List (List α)
  | 0, _ => []
  | _, [] => []
  | fuel + 1, l => l.take n :: chunksOfAux n fuel (l.drop n)

/-- Split a list into consecutive chunks of length `n`. -/
def chunksOf (n : Nat) (l : List α) : List (List α) :=
  chunksOfAux n l.length l

/-- `tf.reshape(x, (-1, T, D))` on the flattened data: refill row-major. -/
def tf_reshape3 (T D : Nat) (flat : List α) : Tensor3 α :=
  chunksOf T (chunksOf D flat)

/-- `labels[:, :, None]`: append a singleton axis. -/
def expand_dims_last (m : Tensor2 α) : Tensor3 α :=
  m.map fun r => r.map fun v => [v]

/-- Concatenation of two 3-D tensors along the last (feature) axis. -/
def concat_last (x y : Tensor3 α) : Tensor3 α :=
  List.zipWith (fun s r => List.zipWith (fun a b => a ++ b) s r) x y

/-- Concatenation of two 2-D tensors along the feature axis (`axis=1`). -/
def concat_feat (x y : Tensor2 α) : Tensor2 α :=
  List.zipWith (fun a b => a ++ b) x y

/-- The shape of a 2-D tensor as Python's `tensor.shape` list. -/
def tensor2_shape (m : Tensor2 α) : List Nat :=
  [m.length, (m.getD 0 []).length]

/-- `rep_labels` in the non-temporal branch of `ConditionalGAN.train_step`
(lines 306-316): `rep_labels = labels[:, :, None]`, then
`tf.repeat(rep_labels, repeats=[self._seq_len])` (no axis, so flatten and
repeat elementwise), then `tf.reshape(rep_labels, (-1, seq_len, output_dim))`. -/
def ConditionalGAN.rep_labels_static (seq_len output_dim : Nat) (labels : Tensor2 α) :
    Tensor3 α :=
  let rep_labels := expand_dims_last labels
  let rep_labels := tf_repeat_flat rep_labels.flatten.flatten seq_len
  tf_reshape3 seq_len output_dim rep_labels

/-- The values a non-temporal `ConditionalGAN.train_step` computes that the
claims speak about. -/
structure CGANStep (α : Type) where
  output_dim : Nat
  rep_labels : Tensor3 α
  fake_data : Tensor3 α
  real_data : Tensor3 α
  combined_data : Tensor3 α
  desc_labels : List ℚ
  misleading_labels : List ℚ
  d_loss : ℚ
  g_loss : ℚ

/-- `ConditionalGAN.train_step` (lines 293-373) for a non-temporal trainer,
data and loss computation.  `D` is the discriminator on one
(time × feature-plus-label) sample; `generated_ts` and `fake_samples` are the
generator's outputs on the two conditioned latent draws; gradient application
and tracker mutation are modelled by `ConditionalGAN.train_step_events`. -/
def ConditionalGAN.train_step_static (seq_len : Nat) (loss_fn : List ℚ → List ℚ → ℚ)
    (D : List (List α) → ℚ) (real_ts : Tensor3 α) (labels : Tensor2 α)
    (generated_ts fake_samples : Tensor3 α) : CGANStep α :=
  let output_dim := ConditionalGAN._get_output_shape false (tensor2_shape labels)
  let batch_size := real_ts.length
  let rep_labels := ConditionalGAN.rep_labels_static seq_len output_dim labels
  let fake_data := concat_last generated_ts rep_labels
  let real_data := concat_last real_ts rep_labels
  let combined_data := fake_data ++ real_data
  let desc_labels := List.replicate batch_size (1 : ℚ) ++ List.replicate batch_size (0 : ℚ)
  let predictions := combined_data.map D
  let d_loss := loss_fn desc_labels predictions
  let misleading_labels := List.replicate batch_size (0 : ℚ)
  let fake_data2 := concat_last fake_samples rep_labels
  let g_loss := loss_fn misleading_labels (fake_data2.map D)
  ⟨output_dim, rep_labels, fake_data, real_data, combined_data, desc_labels,
   misleading_labels, d_loss, g_loss⟩

/-- `ConditionalGAN._get_random_vector_labels` (lines 271-282): if temporal,
concatenate a `(B, T, latent_dim)` normal draw with `labels[:, :, None]` along
`axis=2`; otherwise concatenate a `(B, latent_dim)` normal draw with the
labels along `axis=1`. -/
def ConditionalGAN._get_random_vector_labels (temporal : Bool) (seq_len latent_dim : Nat)
    (z2 : Nat → Nat → ℚ) (z3 : Nat → Nat → Nat → ℚ) (batch_size : Nat)
    (labels : Tensor2 ℚ) : Tensor2 ℚ ⊕ Tensor3 ℚ :=
  if temporal then
    let random_latent_vectors := randNormal3 z3 batch_size seq_len latent_dim
    Sum.inr (concat_last random_latent_vectors (expand_dims_last labels))
  else
    let random_latent_vectors := randNormal2 z2 batch_size latent_dim
    Sum.inl (concat_feat random_latent_vectors labels)

/-- The random draws `ConditionalGAN._get_random_vector_labels` requests. -/
def ConditionalGAN._get_random_vector_labels_draws (temporal : Bool)
    (seq_len latent_dim batch_size : Nat) : List Draw :=
  if temporal then [Draw.normal [batch_size, seq_len, latent_dim] 0 1]
  else [Draw.normal [batch_size, latent_dim] 0 1]

instance (m : Tensor2 α) (B D : Nat) : Decidable (shape2 m B D) := by
  unfold shape2; infer_instance

instance (c : Tensor3 α) (B T D : Nat) : Decidable (shape3 c B T D) := by
  unfold shape3; infer_instance

theorem getD_map_range {β : Type} {f : Nat → β} {B b : Nat} (hb : b < B) (d : β) :
    ((List.range B).map f).getD b d = f b := by
  have h1 : b < ((List.range B).map f).length := by simpa using hb
  rw [List.getD_eq_getElem _ _ h1, List.getElem_map, List.getElem_range]

theorem getD_zipWith {α β γ : Type} (f : α → β → γ) (x : List α) (y : List β) (b : Nat)
    (da : α) (db : β) (dc : γ) (hx : b < x.length) (hy : b < y.length) :
    (List.zipWith f x y).getD b dc = f (x.getD b da) (y.getD b db) := by
  have hz : b < (List.zipWith f x y).length := by
    rw [List.length_zipWith]; exact lt_min hx hy
  rw [List.getD_eq_getElem _ _ hz, List.getD_eq_getElem _ _ hx, List.getD_eq_getElem _ _ hy,
    List.getElem_zipWith]

theorem getD_map {α β : Type} (f : α → β) (x : List α) (b : Nat) (da : α) (db : β)
    (hx : b < x.length) :
    (x.map f).getD b db = f (x.getD b da) := by
  have h1 : b < (x.map f).length := by simpa using hx
  rw [List.getD_eq_getElem _ _ h1, List.getD_eq_getElem _ _ hx, List.getElem_map]

theorem shape2_randNormal2 (z : Nat → Nat → ℚ) (B L : Nat) :
    shape2 (randNormal2 z B L) B L := by
  refine ⟨by simp [randNormal2], fun b hb => ?_⟩
  unfold randNormal2
  rw [getD_map_range hb]
  simp

theorem getD_randNormal2 (z : Nat → Nat → ℚ) {B : Nat} (L : Nat) {b : Nat} (hb : b < B) :
    (randNormal2 z B L).getD b [] = (List.range L).map (z b) := by
  unfold randNormal2
  rw [getD_map_range hb]

theorem getD_randNormal3 (z : Nat → Nat → Nat → ℚ) {B : Nat} (T L : Nat) {b : Nat}
    (hb : b < B) :
    (randNormal3 z B T L).getD b []
      = (List.range T).map fun t => (List.range L).map fun j => z b t j := by
  unfold randNormal3
  rw [getD_map_range hb]

theorem shape3_zip3 (f : ℚ → ℚ → ℚ) {x y : Tensor3 ℚ} {B T F : Nat}
    (hx : shape3 x B T F) (hy : shape3 y B T F) : shape3 (zip3 f x y) B T F := by
  obtain ⟨hx1, hx2⟩ := hx
  obtain ⟨hy1, hy2⟩ := hy
  refine ⟨by simp [zip3, List.length_zipWith, hx1, hy1], fun b hb => ?_⟩
  obtain ⟨hxT, hxF⟩ := hx2 b hb
  obtain ⟨hyT, hyF⟩ := hy2 b hb
  have hbx : b < x.length := by rw [hx1]; exact hb
  have hby : b < y.length := by rw [hy1]; exact hb
  unfold zip3
  rw [getD_zipWith _ x y b [] [] [] hbx hby]
  have htx : ∀ t, t < T → t < (x.getD b []).length := fun t ht => by rw [hxT]; exact ht
  have hty : ∀ t, t < T → t < (y.getD b []).length := fun t ht => by rw [hyT]; exact ht
  refine ⟨by rw [List.length_zipWith, hxT, hyT]; simp, fun t ht => ?_⟩
  rw [getD_zipWith _ _ _ t [] [] [] (htx t ht) (hty t ht), List.length_zipWith,
    hxF t ht, hyF t ht]
  simp

theorem shape3_scale3 {alpha : List ℚ} {x : Tensor3 ℚ} {B T F : Nat}
    (hα : alpha.length = B) (hx : shape3 x B T F) : shape3 (scale3 alpha x) B T F := by
  obtain ⟨hx1, hx2⟩ := hx
  refine ⟨by simp [scale3, List.length_zipWith, hα, hx1], fun b hb => ?_⟩
  obtain ⟨hxT, hxF⟩ := hx2 b hb
  have hbα : b < alpha.length := by rw [hα]; exact hb
  have hbx : b < x.length := by rw [hx1]; exact hb
  unfold scale3
  rw [getD_zipWith _ alpha x b 0 [] [] hbα hbx]
  have htx : ∀ t, t < T → t < (x.getD b []).length := fun t ht => by rw [hxT]; exact ht
  refine ⟨by rw [List.length_map, hxT], fun t ht => ?_⟩
  rw [getD_map _ _ t [] [] (htx t ht), List.length_map, hxF t ht]

theorem idx3_zip3 (f : ℚ → ℚ → ℚ) {x y : Tensor3 ℚ} {B T F b t j : Nat}
    (hx : shape3 x B T F) (hy : shape3 y B T F) (hb : b < B) (ht : t < T) (hj : j < F) :
    idx3 (zip3 f x y) 0 b t j = f (idx3 x 0 b t j) (idx3 y 0 b t j) := by
  obtain ⟨hx1, hx2⟩ := hx
  obtain ⟨hy1, hy2⟩ := hy
  obtain ⟨hxT, hxF⟩ := hx2 b hb
  obtain ⟨hyT, hyF⟩ := hy2 b hb
  have hbx : b < x.length := by rw [hx1]; exact hb
  have hby : b < y.length := by rw [hy1]; exact hb
  have htx : t < (x.getD b []).length := by rw [hxT]; exact ht
  have hty : t < (y.getD b []).length := by rw [hyT]; exact ht
  have hjx : j < ((x.getD b []).getD t []).length := by rw [hxF t ht]; exact hj
  have hjy : j < ((y.getD b []).getD t []).length := by rw [hyF t ht]; exact hj
  unfold idx3 zip3
  rw [getD_zipWith _ x y b [] [] [] hbx hby, getD_zipWith _ _ _ t [] [] [] htx hty,
    getD_zipWith f _ _ j 0 0 0 hjx hjy]

theorem idx3_scale3 {alpha : List ℚ} {x : Tensor3 ℚ} {B T F b t j : Nat}
    (hα : alpha.length = B) (hx : shape3 x B T F) (hb : b < B) (ht : t < T) (hj : j < F) :
    idx3 (scale3 alpha x) 0 b t j = alpha.getD b 0 * idx3 x 0 b t j := by
  obtain ⟨hx1, hx2⟩ := hx
  obtain ⟨hxT, hxF⟩ := hx2 b hb
  have hbα : b < alpha.length := by rw [hα]; exact hb
  have hbx : b < x.length := by rw [hx1]; exact hb
  have htx : t < (x.getD b []).length := by rw [hxT]; exact ht
  have hjx : j < ((x.getD b []).getD t []).length := by rw [hxF t ht]; exact hj
  unfold idx3 scale3
  rw [getD_zipWith _ alpha x b 0 [] [] hbα hbx, getD_map _ _ t [] [] htx,
    getD_map _ _ j 0 0 hjx]

/-- C9: `ConditionalGAN._get_output_shape` returns 1 for a 2-D label tensor
when temporal, the third dimension for a 3-D label tensor when temporal, and
the second dimension when not temporal. -/
theorem get_output_shape_cases (B T D : Nat) :
    ConditionalGAN._get_output_shape true [B, T] = 1
    ∧ ConditionalGAN._get_output_shape true [B, T, D] = D
    ∧ ConditionalGAN._get_output_shape false [B, D] = D
    ∧ ConditionalGAN._get_output_shape false [B, T, D] = T :=
  ⟨rfl, rfl, rfl, rfl⟩

/-- C7: `GAN.clone` rebinds the constructed copy's name to the return value of
`set_weights` (Python `None`) and returns that, so the constructed copy is
discarded and no usable trainer object is returned. -/
theorem clone_returns_no_object (g : GANModel) :
    GANModel.clone g
      = GANModel.set_weights
          { discriminator := g.discriminator, generator := g.generator,
            latent_dim := g.latent_dim, use_wgan := false, weights := g.weights }
          g.get_weights
    ∧ GANModel.clone g = none :=
  ⟨rfl, rfl⟩

/-- C10: the unconditional trainer's `_get_random_vector_labels` ignores its
`labels` argument entirely: for every batch size the result is the same
`(batch_size, latent_dim)` tensor for any two label values (including `none`),
it has shape `(batch_size, latent_dim)`, and the single random draw it
requests is standard normal (mean 0, stddev 1) at that shape — so no label
information can reach the unconditional generator's input. -/
theorem gan_latent_ignores_labels (latent_dim : Nat) (z : Nat → Nat → ℚ) (B : Nat)
    (labels1 labels2 : Option (Tensor2 ℚ)) :
    GAN._get_random_vector_labels latent_dim z B labels1
      = GAN._get_random_vector_labels latent_dim z B labels2
    ∧ GAN._get_random_vector_labels latent_dim z B labels1
      = GAN._get_random_vector_labels latent_dim z B none
    ∧ shape2 (GAN._get_random_vector_labels latent_dim z B labels1) B latent_dim
    ∧ GAN._get_random_vector_labels_draws latent_dim B = [Draw.normal [B, latent_dim] 0 1] :=
  ⟨rfl, rfl, shape2_randNormal2 z B latent_dim, rfl⟩

/-- C4: with `use_wgan = True`, the unconditional training step computes
`d_loss = (mean of discriminator logits on the fake batch - mean on the real
batch) + gp_weight * gradient penalty` with `gp_weight` fixed at 10.0, and
`g_loss = -mean(discriminator(fresh fake batch))`. -/
theorem wgan_step_losses {α : Type} (loss_fn : List ℚ → List ℚ → ℚ) (D : α → ℚ)
    (real_data fake_data fresh_fake : List α) (gp : ℚ) :
    (GAN.train_step true loss_fn D real_data fake_data fresh_fake gp).d_loss
      = (tf_reduce_mean (fake_data.map D) - tf_reduce_mean (real_data.map D)) + 10 * gp
    ∧ (GAN.train_step true loss_fn D real_data fake_data fresh_fake gp).g_loss
      = -tf_reduce_mean (fresh_fake.map D) := by
  constructor
  · show GAN.wgan_discriminator_loss (real_data.map D) (fake_data.map D) + gp * GAN.gp_weight = _
    unfold GAN.wgan_discriminator_loss GAN.gp_weight
    ring
  · rfl

/-- C1 (evaluation at the failing input): at batch size 1 the combined batch
fed to the discriminator is `[fake; real]` (here the fake sample 10 first,
then the real sample 20), while the label vector passed to the loss function
is `[1, 0]` — so the value 1 lands on the fake row and 0 on the real row, in
both the unconditional and the conditional trainer, contradicting the claim
(and the in-code comment "1 == real data, 0 == fake data"). -/
theorem desc_labels_mark_fake_rows_one :
    (GAN.train_step false (fun _ _ => 0) (fun _ => (0 : ℚ)) [(20 : Nat)] [10] [11] 0).combined_data
      = [10, 20]
    ∧ (GAN.train_step false (fun _ _ => 0) (fun _ => (0 : ℚ)) [(20 : Nat)] [10] [11] 0).desc_labels
      = [1, 0]
    ∧ (ConditionalGAN.train_step_static 2 (fun _ _ => 0) (fun _ => (0 : ℚ))
        [[[0], [0]]] [[(5 : Nat)]] [[[1], [1]]] [[[1], [1]]]).combined_data
      = [[[1, 5], [1, 5]], [[0, 5], [0, 5]]]
    ∧ (ConditionalGAN.train_step_static 2 (fun _ _ => 0) (fun _ => (0 : ℚ))
        [[[0], [0]]] [[(5 : Nat)]] [[[1], [1]]] [[[1], [1]]]).desc_labels
      = [1, 0] := by
  refine ⟨rfl, ?_, rfl, ?_⟩ <;> decide

/-- C3 (evaluation at the failing input): in a non-temporal conditional step
with `seq_len = 2` and a single sample whose label vector is `[5, 7]`
(`label_dim = 2`), the computed `rep_labels` is `[[[5, 5], [7, 7]]]`: entry
`rep_labels[0, 0, 1]` is 5 whereas `labels[0, 1]` is 7, so the per-sample
label is not broadcast across timesteps (the axis-free `tf.repeat` scrambles
the components whenever `label_dim ≥ 2`). -/
theorem rep_labels_not_broadcast :
    ConditionalGAN.rep_labels_static 2 2 [[(5 : Nat), 7]] = [[[5, 5], [7, 7]]]
    ∧ (ConditionalGAN.train_step_static 2 (fun _ _ => 0) (fun _ => (0 : ℚ))
        [[[0], [0]]] [[(5 : Nat), 7]] [[[1], [1]]] [[[1], [1]]]).rep_labels
      = [[[5, 5], [7, 7]]]
    ∧ idx3 (ConditionalGAN.rep_labels_static 2 2 [[(5 : Nat), 7]]) 0 0 0 1 = 5
    ∧ idx2 [[(5 : Nat), 7]] 0 0 1 = 7 := by
  refine ⟨?_, ?_, ?_, ?_⟩ <;> decide

/-- C2 (counterexample to the claim as stated): the per-sample mixing
coefficient drawn by `GAN.gradient_penalty` at batch size 3 is not a uniform
draw on `[0, 1)` — the recorded draw differs from the uniform descriptor. -/
theorem gp_alpha_not_uniform :
    GAN.gradient_penalty_draws 3 ≠ [Draw.uniform [3, 1, 1] 0 1] := by
  decide

/-- C2 (amended): the mixing coefficient `alpha` in `GAN.gradient_penalty` is
drawn from a normal distribution with mean 0 and standard deviation 1 (not
uniformly from `[0, 1)`), one coefficient per sample of the batch: the
interpolated tensor at sample `b`, timestep `t`, feature `j` is
`real + alpha[b] * (fake - real)`, with the same coefficient for every `t`
and `j` of sample `b`. -/
theorem gp_alpha_normal_per_sample (B T F b t j : Nat) (alpha : List ℚ)
    (real_samples fake_samples : Tensor3 ℚ) (hα : alpha.length = B)
    (hr : shape3 real_samples B T F) (hf : shape3 fake_samples B T F)
    (hb : b < B) (ht : t < T) (hj : j < F) :
    GAN.gradient_penalty_draws B = [Draw.normal [B, 1, 1] 0 1]
    ∧ idx3 (GAN.gradient_penalty_interpolated alpha real_samples fake_samples) 0 b t j
        = idx3 real_samples 0 b t j
          + alpha.getD b 0 * (idx3 fake_samples 0 b t j - idx3 real_samples 0 b t j) := by
  refine ⟨rfl, ?_⟩
  unfold GAN.gradient_penalty_interpolated
  rw [idx3_zip3 _ hr (shape3_scale3 hα (shape3_zip3 _ hf hr)) hb ht hj,
    idx3_scale3 hα (shape3_zip3 _ hf hr) hb ht hj,
    idx3_zip3 _ hf hr hb ht hj]

/-- Witness for the amended C2 theorem at a concrete input: one sample, one
timestep, one feature, `alpha = [1/2]`, real value 2, fake value 4; the
interpolated value is `2 + (1/2) * (4 - 2) = 3`. -/
theorem gp_alpha_normal_per_sample_witness :
    ([(1 : ℚ)/2].length = 1 ∧ shape3 [[[(2 : ℚ)]]] 1 1 1 ∧ shape3 [[[(4 : ℚ)]]] 1 1 1
      ∧ 0 < 1)
    ∧ (GAN.gradient_penalty_draws 1 = [Draw.normal [1, 1, 1] 0 1]
      ∧ idx3 (GAN.gradient_penalty_interpolated [(1 : ℚ)/2] [[[2]]] [[[4]]]) 0 0 0 0
          = idx3 [[[(2 : ℚ)]]] 0 0 0 0
            + [(1 : ℚ)/2].getD 0 0 * (idx3 [[[(4 : ℚ)]]] 0 0 0 0 - idx3 [[[(2 : ℚ)]]] 0 0 0 0)) :=
  ⟨⟨rfl, by decide, by decide, by decide⟩,
    gp_alpha_normal_per_sample 1 1 1 0 0 0 [(1 : ℚ)/2] [[[2]]] [[[4]]] rfl
      (by decide) (by decide) (by decide) (by decide) (by decide)⟩

/-- C5: after compile on either trainer, `dp` is true iff both supplied
optimizers are instances of one of the three known DP optimizer classes (under
the real-world constraint that DP-class instances can only exist when the
privacy extension imported); when the two DP checks disagree a warning is
logged and compilation proceeds with `dp = false` (no error: compile is
total); and when the privacy extension is not importable the DP check reports
false for every optimizer, so `dp` is always false. -/
theorem compile_dp_flag (tf_privacy_available : Bool) (d g : OptimizerKind)
    (h : tf_privacy_available = false → d.isDP = false ∧ g.isDP = false) :
    ((GAN.compile tf_privacy_available d g).1 = true ↔ (d.isDP = true ∧ g.isDP = true))
    ∧ ((ConditionalGAN.compile tf_privacy_available d g).1 = true
        ↔ (d.isDP = true ∧ g.isDP = true))
    ∧ (is_dp_optimizer tf_privacy_available d ≠ is_dp_optimizer tf_privacy_available g →
        (GAN.compile tf_privacy_available d g).2 = true
        ∧ (GAN.compile tf_privacy_available d g).1 = false
        ∧ (ConditionalGAN.compile tf_privacy_available d g).2 = true
        ∧ (ConditionalGAN.compile tf_privacy_available d g).1 = false)
    ∧ (∀ o : OptimizerKind, is_dp_optimizer false o = false)
    ∧ (GAN.compile false d g).1 = false
    ∧ (ConditionalGAN.compile false d g).1 = false := by
  revert h
  cases tf_privacy_available <;> cases d <;> cases g <;> decide

/-- Witness for C5 at a concrete input: the privacy extension is importable,
the discriminator optimizer is DP-flavored and the generator optimizer is
plain; the hypothesis holds vacuously and `dp` comes out false. -/
theorem compile_dp_flag_witness :
    (true = false →
      OptimizerKind.isDP .dpKerasAdam = false ∧ OptimizerKind.isDP .plain = false)
    ∧ ((GAN.compile true .dpKerasAdam .plain).1 = true
        ↔ (OptimizerKind.isDP .dpKerasAdam = true ∧ OptimizerKind.isDP .plain = true)) :=
  ⟨by decide, (compile_dp_flag true .dpKerasAdam .plain (by decide)).1⟩

/-- C6: in both trainers (for either value of the conditional trainer's `dp`
flag), each loss tracker is updated exactly once per step and the two tracker
updates are the final two effects — so a failure in any of the preceding
tensor operations leaves both trackers at their pre-step values — while the
discriminator's parameter update precedes the computation of the generator
loss (so a failure during the generator phase leaves the discriminator
already updated: partial-step application is possible), and the generator's
update follows the generator loss. -/
theorem step_trackers_updated_last (dp : Bool) :
    (GAN.train_step_events.count TrainEvent.genTrackerUpdated = 1
      ∧ GAN.train_step_events.count TrainEvent.discTrackerUpdated = 1
      ∧ ((GAN.train_step_events.take 4).all fun e => !e.isTrackerUpdate) = true
      ∧ GAN.train_step_events.drop 4
          = [TrainEvent.genTrackerUpdated, TrainEvent.discTrackerUpdated]
      ∧ ((GAN.train_step_events.take 4).countP fun e => e.isDiscUpdate) = 1
      ∧ ((GAN.train_step_events.take 4).countP fun e => e.isGenUpdate) = 1
      ∧ (GAN.train_step_events.findIdx fun e => e.isDiscUpdate)
          < (GAN.train_step_events.findIdx fun e => e == TrainEvent.gLossComputed)
      ∧ (GAN.train_step_events.findIdx fun e => e == TrainEvent.gLossComputed)
          < (GAN.train_step_events.findIdx fun e => e.isGenUpdate))
    ∧ ((ConditionalGAN.train_step_events dp).count TrainEvent.genTrackerUpdated = 1
      ∧ (ConditionalGAN.train_step_events dp).count TrainEvent.discTrackerUpdated = 1
      ∧ (((ConditionalGAN.train_step_events dp).take 4).all fun e => !e.isTrackerUpdate) = true
      ∧ (ConditionalGAN.train_step_events dp).drop 4
          = [TrainEvent.genTrackerUpdated, TrainEvent.discTrackerUpdated]
      ∧ (((ConditionalGAN.train_step_events dp).take 4).countP fun e => e.isDiscUpdate) = 1
      ∧ (((ConditionalGAN.train_step_events dp).take 4).countP fun e => e.isGenUpdate) = 1
      ∧ ((ConditionalGAN.train_step_events dp).findIdx fun e => e.isDiscUpdate)
          < ((ConditionalGAN.train_step_events dp).findIdx fun e => e == TrainEvent.gLossComputed)
      ∧ ((ConditionalGAN.train_step_events dp).findIdx fun e => e == TrainEvent.gLossComputed)
          < ((ConditionalGAN.train_step_events dp).findIdx fun e => e.isGenUpdate)) := by
  cases dp <;> decide

/-- C8: `ConditionalGAN._get_random_vector_labels` — not temporal: the result
is the concatenation of a `(B, latent_dim)` latent tensor with the
`(B, label_dim)` labels along the single feature axis, so the output's second
dimension equals `latent_dim + label_dim`; temporal: the result is the
concatenation along the feature axis of a `(B, seq_len, latent_dim)` latent
tensor with the labels injected as one extra channel at every timestep
(scalar-per-timestep labels reshaped to `(B, seq_len, 1)`); and the single
random draw requested in each branch is standard normal at the stated shape. -/
theorem cgan_random_vector_concat (z2 : Nat → Nat → ℚ) (z3 : Nat → Nat → Nat → ℚ)
    (seq_len latent_dim B D b t : Nat) (labels labelsT : Tensor2 ℚ)
    (hL : shape2 labels B D) (hLT : shape2 labelsT B seq_len)
    (hb : b < B) (ht : t < seq_len) :
    (∃ m : Tensor2 ℚ,
        ConditionalGAN._get_random_vector_labels false seq_len latent_dim z2 z3 B labels
          = Sum.inl m
        ∧ shape2 m B (latent_dim + D)
        ∧ m.getD b [] = ((List.range latent_dim).map (z2 b)) ++ labels.getD b [])
    ∧ (∃ c : Tensor3 ℚ,
        ConditionalGAN._get_random_vector_labels true seq_len latent_dim z2 z3 B labelsT
          = Sum.inr c
        ∧ shape3 c B seq_len (latent_dim + 1)
        ∧ (c.getD b []).getD t []
            = ((List.range latent_dim).map fun j => z3 b t j) ++ [idx2 labelsT 0 b t])
    ∧ ConditionalGAN._get_random_vector_labels_draws false seq_len latent_dim B
        = [Draw.normal [B, latent_dim] 0 1]
    ∧ ConditionalGAN._get_random_vector_labels_draws true seq_len latent_dim B
        = [Draw.normal [B, seq_len, latent_dim] 0 1] := by
  obtain ⟨hL1, hL2⟩ := hL
  obtain ⟨hT1, hT2⟩ := hLT
  refine ⟨⟨concat_feat (randNormal2 z2 B latent_dim) labels, rfl, ⟨?_, fun q hq => ?_⟩, ?_⟩,
    ⟨concat_last (randNormal3 z3 B seq_len latent_dim) (expand_dims_last labelsT), rfl,
      ⟨?_, fun q hq => ?_⟩, ?_⟩, rfl, rfl⟩
  · simp [concat_feat, List.length_zipWith, randNormal2, hL1]
  · have h1 : q < (randNormal2 z2 B latent_dim).length := by simpa [randNormal2] using hq
    have h2 : q < labels.length := by rw [hL1]; exact hq
    unfold concat_feat
    rw [getD_zipWith _ _ _ q [] [] [] h1 h2, List.length_append,
      getD_randNormal2 z2 latent_dim hq, List.length_map, List.length_range, hL2 q hq]
  · have h1 : b < (randNormal2 z2 B latent_dim).length := by simpa [randNormal2] using hb
    have h2 : b < labels.length := by rw [hL1]; exact hb
    unfold concat_feat
    rw [getD_zipWith _ _ _ b [] [] [] h1 h2, getD_randNormal2 z2 latent_dim hb]
  · simp [concat_last, List.length_zipWith, randNormal3, expand_dims_last, hT1]
  · have h1 : q < (randNormal3 z3 B seq_len latent_dim).length := by
      simpa [randNormal3] using hq
    have h2 : q < (expand_dims_last labelsT).length := by
      simpa [expand_dims_last, hT1] using hq
    have h2q : q < labelsT.length := by rw [hT1]; exact hq
    have hex : (expand_dims_last labelsT).getD q [] = (labelsT.getD q []).map fun v => [v] := by
      unfold expand_dims_last
      exact getD_map _ labelsT q [] [] h2q
    unfold concat_last
    rw [getD_zipWith _ _ _ q [] [] [] h1 h2, getD_randNormal3 z3 seq_len latent_dim hq, hex]
    constructor
    · rw [List.length_zipWith, List.length_map, List.length_range, List.length_map, hT2 q hq]
      simp
    · intro s hs
      have hs1 : s < ((List.range seq_len).map
          fun u => (List.range latent_dim).map fun j => z3 q u j).length := by
        simpa using hs
      have hs2 : s < ((labelsT.getD q []).map fun v => [v]).length := by
        rw [List.length_map, hT2 q hq]; exact hs
      have hs3 : s < (labelsT.getD q []).length := by rw [hT2 q hq]; exact hs
      rw [getD_zipWith _ _ _ s [] [] [] hs1 hs2, getD_map_range hs,
        getD_map _ _ s 0 [] hs3]
      simp
  · have h1 : b < (randNormal3 z3 B seq_len latent_dim).length := by
      simpa [randNormal3] using hb
    have h2 : b < (expand_dims_last labelsT).length := by
      simpa [expand_dims_last, hT1] using hb
    have h2b : b < labelsT.length := by rw [hT1]; exact hb
    have hex : (expand_dims_last labelsT).getD b [] = (labelsT.getD b []).map fun v => [v] := by
      unfold expand_dims_last
      exact getD_map _ labelsT b [] [] h2b
    unfold concat_last
    rw [getD_zipWith _ _ _ b [] [] [] h1 h2, getD_randNormal3 z3 seq_len latent_dim hb, hex]
    have ht1 : t < ((List.range seq_len).map
        fun u => (List.range latent_dim).map fun j => z3 b u j).length := by
      simpa using ht
    have ht3 : t < (labelsT.getD b []).length := by rw [hT2 b hb]; exact ht
    have ht2 : t < ((labelsT.getD b []).map fun v => [v]).length := by
      simpa using ht3
    rw [getD_zipWith _ _ _ t [] [] [] ht1 ht2, getD_map_range ht,
      getD_map _ _ t 0 [] ht3]
    rfl

/-- Witness for C8 at a concrete input: one sample, one timestep, one label
channel, one latent dimension, zero noise. -/
theorem cgan_random_vector_concat_witness :
    (shape2 [[(3 : ℚ)]] 1 1 ∧ shape2 [[(5 : ℚ)]] 1 1 ∧ (0 : Nat) < 1)
    ∧ ConditionalGAN._get_random_vector_labels_draws false 1 1 1
        = [Draw.normal [1, 1] 0 1] :=
  ⟨⟨by decide, by decide, by decide⟩,
    (cgan_random_vector_concat (fun _ _ => 0) (fun _ _ _ => 0) 1 1 1 1 0 0 [[3]] [[5]]
      (by decide) (by decide) (by decide) (by decide)).2.2.1⟩
